import Mathlib

/-!
Verification of the CDS Hooks patient-view service.

Shallow embedding of the request handlers in `src/index.js` and
`src/unnamed/part_000` (two near-identical copies of the same service).
The two copies differ only in the hook-validation error response
(`res.status(400).json(...)` in `part_000` versus a bare `res.json(...)`,
hence the default status 200, in `index.js`) and in the card source
label/url pair; everything else is shared.  We therefore embed one handler
parametrised by a per-file configuration.

Host behaviour that the JavaScript delegates to the runtime is modelled by
explicit parameters:
* `lc` models `String.prototype.localeCompare` (a locale-dependent
  three-way comparison returning a negative, zero or positive integer);
* `parse` models `JSON.parse` applied to the raw FHIR response body,
  yielding either a parse failure or a decoded `Bundle`;
* `fetch` models the outcome of the `request-promise` call: a network
  failure or the raw response body string.

JavaScript `Array.prototype.sort` is required by the language standard to
be stable; for a consistent comparator its result is the unique stable
sorted permutation, which `List.insertionSort` also produces, so
`insertionSort` is a faithful model of the sort step.  The in-place
mutation performed by `l.sort(...)` on the array held by `record.entry`
is captured separately by `bundleAfter`.
-/

namespace CdsService

/-- FHIR `vaccineCode` object; the handler reads only its `text` field. -/
structure VaccineCode where
  text : String
deriving DecidableEq

/-- The part of a FHIR Immunization resource the handler reads.
`vaccineCode` is optional: when it is absent, the JavaScript property
access `resource.vaccineCode.text` throws a `TypeError`.
`expirationDate` is optional in FHIR; `none` models an absent field. -/
structure Resource where
  vaccineCode : Option VaccineCode
  expirationDate : Option String
deriving DecidableEq

/-- One element of the bundle entry list. -/
structure Entry where
  resource : Resource
deriving DecidableEq

/-- FHIR search Bundle as read by the handler: `total` and `entry` may
both be absent in malformed payloads (`none` models `undefined`). -/
structure Bundle where
  total : Option Int
  entry : Option (List Entry)
deriving DecidableEq

/-- The static service descriptor returned by `handle_discovery`. -/
structure ServiceDescriptor where
  hook : String
  title : String
  description : String
  id : String
deriving DecidableEq

/-- The `source` field of a card. -/
structure CardSource where
  label : String
  url : String
deriving DecidableEq

/-- A CDS Hooks card as built by the handler. -/
structure Card where
  summary : String
  detail : String
  source : CardSource
  indicator : String
deriving DecidableEq

/-- The `context` object of the inbound hook request body. -/
structure HookContext where
  patientId : String
deriving DecidableEq

/-- The inbound POST body `{hook, fhirServer, context}`. -/
structure HookRequest where
  hook : String
  fhirServer : String
  context : HookContext
deriving DecidableEq

/-- The outbound HTTP request handed to `request-promise`:
uri, method, headers and query-string parameters. -/
structure OutboundRequest where
  uri : String
  method : String
  headers : List (String × String)
  qs : List (String × String)
deriving DecidableEq

/-- JSON response bodies sent by the handlers. -/
inductive ResponseBody where
  | err (msg : String)
  | cards (cs : List Card)
  | services (ss : List ServiceDescriptor)
deriving DecidableEq

/-- An HTTP response: status code and JSON body.  `res.json(...)` without
an explicit `res.status(...)` sends the Express default status 200. -/
structure HttpResponse where
  status : Nat
  body : ResponseBody
deriving DecidableEq

/-- Errors travelling down the promise chain into `.catch`. -/
inductive JsErr where
  | fetchError
  | parseError
  | thrown (s : String)
  | typeError
deriving DecidableEq

/-- An unguarded fault: the handler throws before any response is sent.
The only such fault is the `TypeError` from `auth.split(" ")` when the
`Authorization` header is `undefined` (no null-check exists). -/
inductive HandlerFault where
  | authTypeError
deriving DecidableEq

/-- What a run of `post_patient_view` produces: either a fault or the
response sent, together with the list of outbound requests issued. -/
structure HandlerOutcome where
  result : Except HandlerFault HttpResponse
  sent : List OutboundRequest

/-- Per-file configuration: the two source copies differ only in the
hook-validation error response and the card `source` pair. -/
structure SourceCfg where
  hookErrStatus : Nat
  hookErrMsg : String
  cardSource : CardSource
deriving DecidableEq

/-- `src/index.js`: bare `res.json({error: ...})` (default status 200),
card source `Local Immune Registry` / `http://www.google.com`. -/
def indexCfg : SourceCfg :=
  { hookErrStatus := 200
    hookErrMsg := "Something is terrible here!"
    cardSource := { label := "Local Immune Registry", url := "http://www.google.com" } }

/-- `src/unnamed/part_000`: `res.status(400).json({error: ...})`,
card source `Your Immune Registry` / empty url. -/
def part000Cfg : SourceCfg :=
  { hookErrStatus := 400
    hookErrMsg := "CDS Hook doesn\x27t match what was expected"
    cardSource := { label := "Your Immune Registry", url := "" } }

/-- A generic inbound request, used to state that `handle_discovery`
ignores every part of it. -/
structure InboundRequest where
  method : String
  url : String
  headers : List (String × String)
  query : List (String × String)
  body : Option String
deriving DecidableEq

/-- The one service descriptor built by `handle_discovery` (note the
leading space in `description`, present verbatim in the source). -/
def discoveryDescriptor : ServiceDescriptor :=
  { hook := "patient-view"
    title := "Steve\x27s sample patient-view service"
    description := " Steve\x27s sample patient-view service and application"
    id := "patientService" }

/-- `handle_discovery(req, res)`: builds the static `{services: [...]}`
object and sends it with `res.json`, consulting nothing in `req`. -/
def handle_discovery (_req : InboundRequest) : HttpResponse :=
  { status := 200, body := ResponseBody.services [discoveryDescriptor] }

/-- JavaScript loose comparison `record.total == 0` where `total` was
read from JSON: `undefined == 0` is `false`; a number compares by value. -/
def jsEqZero : Option Int → Bool
  | some n => n == 0
  | none => false

/-- The sort key `a.resource.vaccineCode.text`.  The `none` default is
never consulted: every context using the key first establishes that
`vaccineCode` is present (otherwise the JavaScript access throws). -/
def keyOf (e : Entry) : String :=
  match e.resource.vaccineCode with
  | some vc => vc.text
  | none => ""

/-- The order induced by the comparator
`(a, b) => a.resource.vaccineCode.text.localeCompare(b.resource.vaccineCode.text)`:
`a` may sit before `b` exactly when the comparison is non-positive. -/
def entryLe (lc : String → String → Int) (a b : Entry) : Prop :=
  lc (keyOf a) (keyOf b) ≤ 0

instance entryLeDecidable (lc : String → String → Int) : DecidableRel (entryLe lc) :=
  fun a b => inferInstanceAs (Decidable (lc (keyOf a) (keyOf b) ≤ 0))

/-- Model of `l.sort(comparator)`: a stable sort by `vaccineCode.text`
under the locale comparison `lc`. -/
def sortEntries (lc : String → String → Int) (l : List Entry) : List Entry :=
  l.insertionSort (entryLe lc)

/-- The sort step `.then(l => l.sort(...))`.
* `l` is `undefined` (missing `entry` list): `undefined.sort` throws.
* At most one element: the comparator is never invoked; the list is
  returned unchanged.
* Otherwise every element takes part in at least one comparison, so a
  missing `vaccineCode` on any element makes the comparator throw a
  `TypeError`; with all keys readable the list is stably sorted. -/
def sortStep (lc : String → String → Int) :
    Option (List Entry) → Except JsErr (List Entry)
  | none => Except.error JsErr.typeError
  | some l =>
    if l.length ≤ 1 then Except.ok l
    else if l.all (fun e => e.resource.vaccineCode.isSome) then
      Except.ok (sortEntries lc l)
    else Except.error JsErr.typeError

/-- JavaScript `v || dflt` for a string-or-undefined `v`: `undefined`
and the empty string are falsy, every other string is truthy. -/
def jsStringOr (v : Option String) (dflt : String) : String :=
  match v with
  | none => dflt
  | some s => if s = "" then dflt else s

/-- One markdown table row, as a total function on entries whose
`vaccineCode` is present. -/
def plainRow (e : Entry) : String :=
  "| " ++ keyOf e ++ " | " ++ jsStringOr e.resource.expirationDate "Does not expire" ++ " |"

/-- The row builder inside `.map(val => ...)`: reading
`val.resource.vaccineCode.text` throws when `vaccineCode` is absent. -/
def rowOf (e : Entry) : Except JsErr String :=
  match e.resource.vaccineCode with
  | none => Except.error JsErr.typeError
  | some _ => Except.ok (plainRow e)

/-- The markdown table header the handler starts from. -/
def tableHeader : String :=
  "| Vaccination | Expiration Date |\n| :---: | :---: |\n"

/-- `immun_list.map(val => ...)` with JavaScript exception semantics:
rows are built left to right and the first `TypeError` aborts the map. -/
def mapRows : List Entry → Except JsErr (List String)
  | [] => Except.ok []
  | e :: es =>
    match rowOf e with
    | Except.error err => Except.error err
    | Except.ok row =>
      match mapRows es with
      | Except.error err => Except.error err
      | Except.ok rows => Except.ok (row :: rows)

/-- The render step: zero cards for an empty list, otherwise one card
whose detail is the header plus the rows joined with newlines.  The
`summary` sentence and the `"info"` indicator are identical in both
source copies; the `source` pair comes from the per-file config. -/
def renderCards (cfg : SourceCfg) (l : List Entry) : Except JsErr (List Card) :=
  if l.isEmpty then Except.ok []
  else
    match mapRows l with
    | Except.error e => Except.error e
    | Except.ok rows =>
      Except.ok [{ summary := "This patient has received immunizations",
                   detail := tableHeader ++ String.intercalate "\n" rows,
                   source := cfg.cardSource,
                   indicator := "info" }]

/-- The `total == 0` short-circuit:
`record.total == 0 ? _throw("No immmunization Record found") : record.entry`
(spelling of the thrown string as in the source). -/
def totalStep (record : Bundle) : Except JsErr (Option (List Entry)) :=
  if jsEqZero record.total then
    Except.error (JsErr.thrown "No immmunization Record found")
  else Except.ok record.entry

/-- The promise chain from the parsed record onward: the `total == 0`
short-circuit, then the sort step, then rendering; a thrown error
short-circuits the remaining `.then` steps. -/
def pipelineFromRecord (cfg : SourceCfg) (lc : String → String → Int)
    (record : Bundle) : Except JsErr (List Card) :=
  match totalStep record with
  | Except.error e => Except.error e
  | Except.ok entries =>
    match sortStep lc entries with
    | Except.error e => Except.error e
    | Except.ok sorted => renderCards cfg sorted

/-- The outbound request built by the handler: GET on
`{fhirServer}/Immunization` with the FHIR Accept header and the
`patient` query parameter. -/
def fhirRequest (body : HookRequest) : OutboundRequest :=
  { uri := body.fhirServer ++ "/Immunization"
    method := "GET"
    headers := [("Accept", "application/json+fhir")]
    qs := [("patient", body.context.patientId)] }

/-- The final `.then`/`.catch` pair: a successful pipeline sends its
cards, any error is logged and answered with `{cards: []}`; both via
`res.json`, hence status 200. -/
def responseOfPipeline (r : Except JsErr (List Card)) : HttpResponse :=
  match r with
  | Except.ok cs => { status := 200, body := ResponseBody.cards cs }
  | Except.error _ => { status := 200, body := ResponseBody.cards [] }

/-- `rp({...}).then(JSON.parse)`: a rejected fetch or a `JSON.parse`
throw short-circuits with the corresponding error, otherwise the parsed
record flows on. -/
def fetchParse (parse : String → Except Unit Bundle) (fetch : Except Unit String) :
    Except JsErr Bundle :=
  match fetch with
  | Except.error _ => Except.error JsErr.fetchError
  | Except.ok raw =>
    match parse raw with
    | Except.error _ => Except.error JsErr.parseError
    | Except.ok record => Except.ok record

/-- The whole promise chain of the handler, from the `request-promise`
call through `.then(JSON.parse)` into the record pipeline. -/
def runPipeline (cfg : SourceCfg) (lc : String → String → Int)
    (parse : String → Except Unit Bundle) (fetch : Except Unit String) :
    Except JsErr (List Card) :=
  match fetchParse parse fetch with
  | Except.error e => Except.error e
  | Except.ok record => pipelineFromRecord cfg lc record

/-- `post_patient_view(req, res)` for either source copy.
* Missing `Authorization` header: `auth.split(" ")` throws an unguarded
  `TypeError` before any response is sent.
* A present header is split on spaces; the second token is only handed
  to `jwt.decode` for logging (`jwt.decode` returns `null` on a missing
  or undecodable token and never throws here), so it does not affect
  control flow.
* Wrong `hook` field: the per-file error response, and no fetch.
* Otherwise: issue the FHIR request, parse the body, run the pipeline,
  and answer through the final `.then`/`.catch`. -/
def post_patient_view (cfg : SourceCfg) (lc : String → String → Int)
    (parse : String → Except Unit Bundle) (fetch : Except Unit String)
    (auth : Option String) (body : HookRequest) : HandlerOutcome :=
  match auth with
  | none => { result := Except.error HandlerFault.authTypeError, sent := [] }
  | some a =>
    let _bearer_token := (a.splitOn " ").get? 1
    if body.hook ≠ "patient-view" then
      { result := Except.ok { status := cfg.hookErrStatus, body := ResponseBody.err cfg.hookErrMsg },
        sent := [] }
    else
      { result := Except.ok (responseOfPipeline (runPipeline cfg lc parse fetch)),
        sent := [fhirRequest body] }

/-- Effect of the pipeline on the bundle object itself: `l.sort(...)`
sorts the array referenced by `record.entry` in place.  The sort runs
only when the `total == 0` short-circuit did not fire, and completes
only when it does not throw; afterwards `entry` holds the sorted array.
(When the comparator itself throws, the engine leaves an unspecified
permutation; we model that branch as unchanged and state theorems about
it only where the behaviour is determined.) -/
def bundleAfter (lc : String → String → Int) (b : Bundle) : Bundle :=
  if jsEqZero b.total then b
  else
    match sortStep lc b.entry with
    | Except.ok l => { b with entry := some l }
    | Except.error _ => b

/-- Three-way lexicographic comparison of character lists by code point,
used to build a concrete executable locale comparison. -/
def charListCompare : List Char → List Char → Int
  | [], [] => 0
  | [], _ :: _ => -1
  | _ :: _, [] => 1
  | c :: cs, d :: ds =>
    if c.toNat < d.toNat then -1
    else if d.toNat < c.toNat then 1
    else charListCompare cs ds

/-- A concrete locale comparison used in witnesses and counterexamples:
three-way comparison in code-point order.  Every locale collation agrees
with it on the plain ASCII names appearing in those concrete inputs. -/
def localeCompareModel (a b : String) : Int :=
  charListCompare a.data b.data

/-! ## Concrete inputs used in witnesses and counterexamples -/

/-- A hook context with a concrete patient id. -/
def demoContext : HookContext := { patientId := "p1" }

/-- A request whose `hook` field is not `patient-view`. -/
def demoBadRequest : HookRequest :=
  { hook := "bad-hook", fhirServer := "http://fhir.example", context := demoContext }

/-- A well-formed patient-view request. -/
def demoGoodRequest : HookRequest :=
  { hook := "patient-view", fhirServer := "http://fhir.example", context := demoContext }

/-- An environment whose `JSON.parse` always fails. -/
def noParse : String → Except Unit Bundle := fun _ => Except.error ()

/-- An environment whose fetch fails with a network error. -/
def noFetch : Except Unit String := Except.error ()

/-- A bundle with `total == 0`. -/
def demoZeroBundle : Bundle := { total := some 0, entry := some [] }

/-- An environment whose `JSON.parse` yields `demoZeroBundle`. -/
def parseZero : String → Except Unit Bundle := fun _ => Except.ok demoZeroBundle

/-- An entry with a falsy (empty-string) `expirationDate`. -/
def demoEmptyExp : Entry :=
  { resource := { vaccineCode := some { text := "Flu" }, expirationDate := some "" } }

/-- An entry named late in code-point (and any locale) order. -/
def entryVaricella : Entry :=
  { resource := { vaccineCode := some { text := "Varicella" }, expirationDate := none } }

/-- An entry named early in code-point (and any locale) order. -/
def entryAdenovirus : Entry :=
  { resource := { vaccineCode := some { text := "Adenovirus" }, expirationDate := some "2024-11-30" } }

/-- First of two entries sharing the key `Flu`. -/
def entryFluA : Entry :=
  { resource := { vaccineCode := some { text := "Flu" }, expirationDate := some "2025-01-01" } }

/-- Second of two entries sharing the key `Flu`. -/
def entryFluB : Entry :=
  { resource := { vaccineCode := some { text := "Flu" }, expirationDate := some "2026-06-30" } }

/-- An entry with no expiration date. -/
def entryMMR : Entry :=
  { resource := { vaccineCode := some { text := "MMR" }, expirationDate := none } }

/-- A bundle whose entry list is out of order, to exhibit the in-place
mutation performed by the sort step. -/
def demoMutBundle : Bundle :=
  { total := some 2, entry := some [entryVaricella, entryAdenovirus] }

/-- An out-of-order list with a tied pair of keys. -/
def demoStableList : List Entry := [entryVaricella, entryFluA, entryFluB]

/-- The stable sort of `demoStableList`: the tied `Flu` pair keeps its
original relative order. -/
def demoStableSorted : List Entry := [entryFluA, entryFluB, entryVaricella]

/-- The concrete scenario of the spec: MMR with no expiration, Flu dated. -/
def demoRenderList : List Entry := [entryMMR, entryFluA]

/-- A fetched bundle holding `demoRenderList`. -/
def demoRenderBundle : Bundle := { total := some 2, entry := some demoRenderList }

/-- An environment whose `JSON.parse` yields `demoRenderBundle`. -/
def parseRender : String → Except Unit Bundle := fun _ => Except.ok demoRenderBundle

/-- A discovery request. -/
def demoRequestA : InboundRequest :=
  { method := "GET", url := "/test1/cds-services", headers := [], query := [], body := none }

/-- A second discovery request differing from `demoRequestA` in method,
headers, query and body. -/
def demoRequestB : InboundRequest :=
  { method := "OPTIONS", url := "/test1/cds-services"
    headers := [("X-Requested-With", "test")], query := [("q", "1")], body := some "x" }

end CdsService

namespace CdsService

/-! ## Theorems -/

/-- C1, counterexample.  In `src/index.js` a request whose `hook` field
is `"bad-hook"` is answered by `res.json({error: ...})` with no
`res.status` call, so the response carries the Express default status
200, not the claimed HTTP 400. -/
theorem C1_counterexample :
    (post_patient_view indexCfg localeCompareModel noParse noFetch
        (some "Bearer tok") demoBadRequest).result
      = Except.ok { status := 200, body := ResponseBody.err "Something is terrible here!" } :=
  rfl

/-- C1, amended.  For a request with a present `Authorization` header
whose `hook` field is not `"patient-view"`, `part_000` responds HTTP 400
with a JSON error body while `index.js` sends its JSON error body with
the default status 200; in both copies the handler returns without
issuing the FHIR fetch (`sent = []`). -/
theorem C1_hook_rejected (lc : String → String → Int)
    (parse : String → Except Unit Bundle) (fetch : Except Unit String)
    (a : String) (body : HookRequest) (hhook : body.hook ≠ "patient-view") :
    post_patient_view part000Cfg lc parse fetch (some a) body
      = { result := Except.ok
            { status := 400, body := ResponseBody.err "CDS Hook doesn\x27t match what was expected" },
          sent := [] } ∧
    post_patient_view indexCfg lc parse fetch (some a) body
      = { result := Except.ok
            { status := 200, body := ResponseBody.err "Something is terrible here!" },
          sent := [] } := by
  constructor <;> simp [post_patient_view, hhook, part000Cfg, indexCfg]

/-- C1, witness for the amended theorem at a concrete bad-hook request. -/
theorem C1_hook_rejected_witness :
    demoBadRequest.hook ≠ "patient-view" ∧
    (post_patient_view part000Cfg localeCompareModel noParse noFetch
        (some "Bearer tok") demoBadRequest
      = { result := Except.ok
            { status := 400, body := ResponseBody.err "CDS Hook doesn\x27t match what was expected" },
          sent := [] } ∧
    post_patient_view indexCfg localeCompareModel noParse noFetch
        (some "Bearer tok") demoBadRequest
      = { result := Except.ok
            { status := 200, body := ResponseBody.err "Something is terrible here!" },
          sent := [] }) :=
  ⟨by decide, C1_hook_rejected localeCompareModel noParse noFetch
    "Bearer tok" demoBadRequest (by decide)⟩

/-- C5.  When the fetched record has `total == 0` the pipeline raises the
domain error thrown by `_throw` (spelled `"No immmunization Record found"`
in the source) and the catch converts it into HTTP 200 `{cards: []}`. -/
theorem C5_total_zero (cfg : SourceCfg) (lc : String → String → Int)
    (parse : String → Except Unit Bundle) (a : String) (body : HookRequest)
    (s : String) (record : Bundle)
    (hhook : body.hook = "patient-view")
    (hparse : parse s = Except.ok record)
    (htotal : record.total = some 0) :
    pipelineFromRecord cfg lc record
      = Except.error (JsErr.thrown "No immmunization Record found") ∧
    (post_patient_view cfg lc parse (Except.ok s) (some a) body).result
      = Except.ok { status := 200, body := ResponseBody.cards [] } := by
  have hz : jsEqZero record.total = true := by simp [htotal, jsEqZero]
  have hpipe : pipelineFromRecord cfg lc record
      = Except.error (JsErr.thrown "No immmunization Record found") := by
    simp [pipelineFromRecord, totalStep, hz]
  refine ⟨hpipe, ?_⟩
  simp [post_patient_view, hhook, runPipeline, fetchParse, hparse, hpipe, responseOfPipeline]

/-- C5, witness at a concrete `total == 0` bundle. -/
theorem C5_total_zero_witness :
    demoGoodRequest.hook = "patient-view" ∧
    parseZero "raw" = Except.ok demoZeroBundle ∧
    demoZeroBundle.total = some 0 ∧
    (pipelineFromRecord part000Cfg localeCompareModel demoZeroBundle
      = Except.error (JsErr.thrown "No immmunization Record found") ∧
    (post_patient_view part000Cfg localeCompareModel parseZero (Except.ok "raw")
        (some "Bearer tok") demoGoodRequest).result
      = Except.ok { status := 200, body := ResponseBody.cards [] }) :=
  ⟨rfl, rfl, rfl, C5_total_zero part000Cfg localeCompareModel parseZero
    "Bearer tok" demoGoodRequest "raw" demoZeroBundle rfl rfl rfl⟩

/-- C7, counterexample.  A present but malformed `Authorization` header
(`"Bearer"`, no second token) does not fault: `split(" ")[1]` is
`undefined`, `jwt.decode` returns `null`, and the handler proceeds to
answer normally (here HTTP 200 `{cards: []}` after a failed fetch) —
refuting the claim that every missing-or-malformed header reaches the
unguarded error branch. -/
theorem C7_counterexample :
    (post_patient_view part000Cfg localeCompareModel noParse noFetch
        (some "Bearer") demoGoodRequest).result
      = Except.ok { status := 200, body := ResponseBody.cards [] } :=
  rfl

/-- C7, amended.  Only a missing `Authorization` header is an unguarded
fault: `auth.split(" ")` throws a `TypeError` (there is no null-check),
so no response — in particular no 400-class response — is sent and no
fetch is issued. -/
theorem C7_missing_auth_fault (cfg : SourceCfg) (lc : String → String → Int)
    (parse : String → Except Unit Bundle) (fetch : Except Unit String)
    (body : HookRequest) :
    (post_patient_view cfg lc parse fetch none body).result
      = Except.error HandlerFault.authTypeError ∧
    (post_patient_view cfg lc parse fetch none body).sent = [] :=
  ⟨rfl, rfl⟩

/-- C7, witness for the amended theorem at a concrete request. -/
theorem C7_missing_auth_fault_witness :
    (post_patient_view part000Cfg localeCompareModel noParse noFetch
        none demoGoodRequest).result
      = Except.error HandlerFault.authTypeError ∧
    (post_patient_view part000Cfg localeCompareModel noParse noFetch
        none demoGoodRequest).sent = [] :=
  C7_missing_auth_fault part000Cfg localeCompareModel noParse noFetch demoGoodRequest

/-- C8.  `handle_discovery` consults nothing in the request: any two
requests receive the same response, and that response is HTTP 200 with
the fixed `{services: [...]}` descriptor built in the source. -/
theorem C8_discovery_constant (r1 r2 : InboundRequest) :
    handle_discovery r1 = handle_discovery r2 ∧
    handle_discovery r1
      = { status := 200,
          body := ResponseBody.services
            [{ hook := "patient-view",
               title := "Steve\x27s sample patient-view service",
               description := " Steve\x27s sample patient-view service and application",
               id := "patientService" }] } :=
  ⟨rfl, rfl⟩

/-- C8, witness: two concrete requests differing in method, headers,
query and body receive the identical fixed response. -/
theorem C8_discovery_constant_witness :
    handle_discovery demoRequestA = handle_discovery demoRequestB ∧
    handle_discovery demoRequestA
      = { status := 200,
          body := ResponseBody.services
            [{ hook := "patient-view",
               title := "Steve\x27s sample patient-view service",
               description := " Steve\x27s sample patient-view service and application",
               id := "patientService" }] } :=
  C8_discovery_constant demoRequestA demoRequestB

/-- C10.  The substitution `val.resource.expirationDate || "Does not expire"`
tests truthiness, not presence: a present but empty-string
`expirationDate` also renders the literal `Does not expire` cell. -/
theorem C10_falsy_expiration (e : Entry) (vc : VaccineCode)
    (hvc : e.resource.vaccineCode = some vc)
    (hexp : e.resource.expirationDate = some "") :
    rowOf e = Except.ok ("| " ++ vc.text ++ " | " ++ "Does not expire" ++ " |") := by
  simp [rowOf, plainRow, keyOf, jsStringOr, hvc, hexp]

/-- C10, witness at a concrete entry with an empty-string expiration. -/
theorem C10_falsy_expiration_witness :
    demoEmptyExp.resource.vaccineCode = some { text := "Flu" } ∧
    demoEmptyExp.resource.expirationDate = some "" ∧
    rowOf demoEmptyExp
      = Except.ok ("| " ++ VaccineCode.text { text := "Flu" } ++ " | " ++ "Does not expire" ++ " |") :=
  ⟨rfl, rfl, C10_falsy_expiration demoEmptyExp { text := "Flu" } rfl rfl⟩

/-! ## Helper lemmas about the pipeline steps -/

/-- A successful sort step came from a present entry list and permutes it. -/
theorem sortStep_ok_perm (lc : String → String → Int) (o : Option (List Entry))
    (l2 : List Entry) (h : sortStep lc o = Except.ok l2) :
    ∃ l, o = some l ∧ l2.Perm l := by
  cases o with
  | none => exact Except.noConfusion h
  | some l =>
    refine ⟨l, rfl, ?_⟩
    simp only [sortStep] at h
    split_ifs at h with hlen hall
    · injection h with h
      subst h
      exact List.Perm.refl _
    · injection h with h
      subst h
      exact List.perm_insertionSort _ _

/-- With every `vaccineCode` present the sort step succeeds with the
stable sort (for at most one element the comparator is never called and
the sort is the identity, which the stable sort also is). -/
theorem sortStep_eq_sortEntries (lc : String → String → Int) (l : List Entry)
    (hvc : ∀ e ∈ l, e.resource.vaccineCode.isSome) :
    sortStep lc (some l) = Except.ok (sortEntries lc l) := by
  simp only [sortStep]
  by_cases hlen : l.length ≤ 1
  · rw [if_pos hlen]
    cases l with
    | nil => rfl
    | cons x xs =>
      cases xs with
      | nil => rfl
      | cons y ys => simp at hlen
  · rw [if_neg hlen, if_pos (List.all_eq_true.mpr fun e he => hvc e he)]

/-- With every `vaccineCode` present the row map succeeds and produces
one row per entry. -/
theorem mapRows_ok (l : List Entry) (h : ∀ e ∈ l, e.resource.vaccineCode.isSome) :
    mapRows l = Except.ok (l.map plainRow) := by
  induction l with
  | nil => rfl
  | cons e es ih =>
    have he : e.resource.vaccineCode.isSome := h e (List.mem_cons_self e es)
    obtain ⟨vc, hvc⟩ := Option.isSome_iff_exists.mp he
    simp [mapRows, rowOf, hvc, ih fun x hx => h x (List.mem_cons_of_mem e hx)]

/-- A missing `vaccineCode` anywhere in the list aborts the row map with
a `TypeError`. -/
theorem mapRows_bad (l : List Entry) (h : ∃ e ∈ l, e.resource.vaccineCode = none) :
    mapRows l = Except.error JsErr.typeError := by
  induction l with
  | nil => simp at h
  | cons e es ih =>
    obtain ⟨x, hx, hbad⟩ := h
    rcases List.mem_cons.mp hx with rfl | hmem
    · simp [mapRows, rowOf, hbad]
    · cases hvce : e.resource.vaccineCode with
      | none => simp [mapRows, rowOf, hvce]
      | some vc => simp [mapRows, rowOf, hvce, ih ⟨x, hmem, hbad⟩]

/-- A non-empty list of entries with readable keys renders exactly one
card with the fixed summary, the table detail, the per-file source and
the `info` indicator. -/
theorem renderCards_ok (cfg : SourceCfg) (l : List Entry) (hne : l ≠ [])
    (hvc : ∀ e ∈ l, e.resource.vaccineCode.isSome) :
    renderCards cfg l = Except.ok
      [{ summary := "This patient has received immunizations",
         detail := tableHeader ++ String.intercalate "\n" (l.map plainRow),
         source := cfg.cardSource,
         indicator := "info" }] := by
  have hemp : l.isEmpty = false := by
    cases l with
    | nil => exact absurd rfl hne
    | cons x xs => rfl
  simp [renderCards, hemp, mapRows_ok l hvc]

/-- The record-level failure conditions each make the pipeline throw. -/
theorem pipelineFromRecord_error (cfg : SourceCfg) (lc : String → String → Int)
    (record : Bundle)
    (h : jsEqZero record.total = true ∨ record.entry = none ∨
      (∃ l, record.entry = some l ∧ ∃ e ∈ l, e.resource.vaccineCode = none)) :
    ∃ err, pipelineFromRecord cfg lc record = Except.error err := by
  by_cases hz : jsEqZero record.total = true
  · exact ⟨JsErr.thrown "No immmunization Record found",
      by simp [pipelineFromRecord, totalStep, hz]⟩
  rcases h with hz2 | hnone | ⟨l, hentry, e, he, hbad⟩
  · exact absurd hz2 hz
  · exact ⟨JsErr.typeError, by simp [pipelineFromRecord, totalStep, hz, hnone, sortStep]⟩
  · by_cases hlen : l.length ≤ 1
    · have hsort : sortStep lc (some l) = Except.ok l := by simp [sortStep, hlen]
      have hrows : mapRows l = Except.error JsErr.typeError := mapRows_bad l ⟨e, he, hbad⟩
      have hemp : l.isEmpty = false := by
        cases l with
        | nil => simp at he
        | cons x xs => rfl
      exact ⟨JsErr.typeError,
        by simp [pipelineFromRecord, totalStep, hz, hentry, hsort, renderCards, hemp, hrows]⟩
    · have hall : l.all (fun e => e.resource.vaccineCode.isSome) = false := by
        cases hb : l.all (fun e => e.resource.vaccineCode.isSome) with
        | false => rfl
        | true =>
          have := List.all_eq_true.mp hb e he
          rw [hbad] at this
          simp at this
      exact ⟨JsErr.typeError,
        by simp [pipelineFromRecord, totalStep, hz, hentry, sortStep, hlen, hall]⟩

/-- The code-point comparison is total: one direction is non-positive. -/
theorem charListCompare_total : ∀ u v : List Char,
    charListCompare u v ≤ 0 ∨ charListCompare v u ≤ 0
  | [], [] => Or.inl (by simp [charListCompare])
  | [], _ :: _ => Or.inl (by simp [charListCompare])
  | _ :: _, [] => Or.inr (by simp [charListCompare])
  | c :: cs, d :: ds => by
    by_cases h1 : c.toNat < d.toNat
    · exact Or.inl (by simp [charListCompare, h1])
    · by_cases h2 : d.toNat < c.toNat
      · exact Or.inr (by simp [charListCompare, h2])
      · rcases charListCompare_total cs ds with h | h
        · exact Or.inl (by simp [charListCompare, h1, h2, h])
        · exact Or.inr (by simp [charListCompare, h1, h2, h])

/-- The non-positive half of the code-point comparison is transitive. -/
theorem charListCompare_trans : ∀ u v w : List Char,
    charListCompare u v ≤ 0 → charListCompare v w ≤ 0 → charListCompare u w ≤ 0
  | [], [], w, _, h2 => h2
  | [], _ :: _, [], _, _ => by simp [charListCompare]
  | [], _ :: _, _ :: _, _, _ => by simp [charListCompare]
  | _ :: _, [], _, h1, _ => by simp [charListCompare] at h1
  | _ :: _, _ :: _, [], _, h2 => by simp [charListCompare] at h2
  | c :: cs, d :: ds, e :: es, h1, h2 => by
    simp only [charListCompare] at h1 h2 ⊢
    by_cases hcd : c.toNat < d.toNat
    · by_cases hde : d.toNat < e.toNat
      · rw [if_pos (Nat.lt_trans hcd hde)]
        decide
      · by_cases hed : e.toNat < d.toNat
        · rw [if_neg hde, if_pos hed] at h2
          exact absurd h2 (by decide)
        · rw [if_pos (by omega : c.toNat < e.toNat)]
          decide
    · by_cases hdc : d.toNat < c.toNat
      · rw [if_neg hcd, if_pos hdc] at h1
        exact absurd h1 (by decide)
      · rw [if_neg hcd, if_neg hdc] at h1
        by_cases hde : d.toNat < e.toNat
        · rw [if_pos (by omega : c.toNat < e.toNat)]
          decide
        · by_cases hed : e.toNat < d.toNat
          · rw [if_neg hde, if_pos hed] at h2
            exact absurd h2 (by decide)
          · rw [if_neg hde, if_neg hed] at h2
            rw [if_neg (by omega : ¬ c.toNat < e.toNat),
              if_neg (by omega : ¬ e.toNat < c.toNat)]
            exact charListCompare_trans cs ds es h1 h2

/-- Totality of the comparator order for the concrete locale model. -/
theorem entryLe_lcm_total (a b : Entry) :
    entryLe localeCompareModel a b ∨ entryLe localeCompareModel b a :=
  charListCompare_total (keyOf a).data (keyOf b).data

/-- Transitivity of the comparator order for the concrete locale model. -/
theorem entryLe_lcm_trans (a b c : Entry) :
    entryLe localeCompareModel a b → entryLe localeCompareModel b c →
    entryLe localeCompareModel a c :=
  charListCompare_trans (keyOf a).data (keyOf b).data (keyOf c).data

/-! ## Remaining claim theorems -/

/-- C9.  For a hook-valid request the handler issues exactly one outbound
request: GET on `{fhirServer}/Immunization` with the `application/json+fhir`
Accept header and the `patient={patientId}` query parameter; and the
response depends on the fetched body only through its `JSON.parse` result
(the body is parsed before any further processing). -/
theorem C9_outbound_request (cfg : SourceCfg) (lc : String → String → Int)
    (parse : String → Except Unit Bundle) (fetch : Except Unit String)
    (a : String) (body : HookRequest) (s1 s2 : String)
    (hhook : body.hook = "patient-view") :
    (post_patient_view cfg lc parse fetch (some a) body).sent
      = [{ uri := body.fhirServer ++ "/Immunization",
           method := "GET",
           headers := [("Accept", "application/json+fhir")],
           qs := [("patient", body.context.patientId)] }] ∧
    (parse s1 = parse s2 →
      post_patient_view cfg lc parse (Except.ok s1) (some a) body
        = post_patient_view cfg lc parse (Except.ok s2) (some a) body) := by
  constructor
  · simp [post_patient_view, hhook, fhirRequest]
  · intro hps
    simp [post_patient_view, hhook, runPipeline, fetchParse, hps]

/-- C9, witness at a concrete request and two raw bodies. -/
theorem C9_outbound_request_witness :
    demoGoodRequest.hook = "patient-view" ∧
    ((post_patient_view part000Cfg localeCompareModel noParse noFetch
        (some "Bearer tok") demoGoodRequest).sent
      = [{ uri := demoGoodRequest.fhirServer ++ "/Immunization",
           method := "GET",
           headers := [("Accept", "application/json+fhir")],
           qs := [("patient", demoGoodRequest.context.patientId)] }] ∧
    (noParse "x" = noParse "y" →
      post_patient_view part000Cfg localeCompareModel noParse (Except.ok "x")
          (some "Bearer tok") demoGoodRequest
        = post_patient_view part000Cfg localeCompareModel noParse (Except.ok "y")
          (some "Bearer tok") demoGoodRequest)) :=
  ⟨rfl, C9_outbound_request part000Cfg localeCompareModel noParse noFetch
    "Bearer tok" demoGoodRequest "x" "y" rfl⟩

/-- C2.  Every failure of the fetch-parse-sort-render pipeline — network
error, parse error, the `total == 0` short-circuit, a missing entry list,
or a missing `vaccineCode` — is swallowed by the catch and answered with
HTTP 200 `{cards: []}`; no such failure yields a non-2xx status. -/
theorem C2_failure_swallowed (cfg : SourceCfg) (lc : String → String → Int)
    (parse : String → Except Unit Bundle) (fetch : Except Unit String)
    (a : String) (body : HookRequest)
    (hhook : body.hook = "patient-view")
    (hfail : fetch = Except.error () ∨
      (∃ s, fetch = Except.ok s ∧ parse s = Except.error ()) ∨
      (∃ s record, fetch = Except.ok s ∧ parse s = Except.ok record ∧
        (jsEqZero record.total = true ∨ record.entry = none ∨
          (∃ l, record.entry = some l ∧ ∃ e ∈ l, e.resource.vaccineCode = none)))) :
    (post_patient_view cfg lc parse fetch (some a) body).result
      = Except.ok { status := 200, body := ResponseBody.cards [] } := by
  have hrun : ∃ err, runPipeline cfg lc parse fetch = Except.error err := by
    rcases hfail with hf | ⟨s, hf, hp⟩ | ⟨s, record, hf, hp, hcase⟩
    · exact ⟨JsErr.fetchError, by simp [runPipeline, fetchParse, hf]⟩
    · exact ⟨JsErr.parseError, by simp [runPipeline, fetchParse, hf, hp]⟩
    · obtain ⟨err, herr⟩ := pipelineFromRecord_error cfg lc record hcase
      exact ⟨err, by simp [runPipeline, fetchParse, hf, hp, herr]⟩
  obtain ⟨err, herr⟩ := hrun
  simp [post_patient_view, hhook, herr, responseOfPipeline]

/-- C2, witness: a network failure on a hook-valid request is answered
with HTTP 200 `{cards: []}`. -/
theorem C2_failure_swallowed_witness :
    demoGoodRequest.hook = "patient-view" ∧
    noFetch = Except.error () ∧
    (post_patient_view part000Cfg localeCompareModel noParse noFetch
        (some "Bearer tok") demoGoodRequest).result
      = Except.ok { status := 200, body := ResponseBody.cards [] } :=
  ⟨rfl, rfl, C2_failure_swallowed part000Cfg localeCompareModel noParse noFetch
    "Bearer tok" demoGoodRequest rfl (Or.inl rfl)⟩

/-- C4.  A successful sort step permutes the entry list (nothing added,
dropped or duplicated); for a consistent comparator the result is sorted
ascending under the locale order and stable: any pair in original order
whose keys compare equal stays in that order. -/
theorem C4_sorted_stable (lc : String → String → Int) (l l2 : List Entry)
    (hsort : sortStep lc (some l) = Except.ok l2)
    (htot : ∀ a b : Entry, entryLe lc a b ∨ entryLe lc b a)
    (htrans : ∀ a b c : Entry, entryLe lc a b → entryLe lc b c → entryLe lc a c) :
    l2.Perm l ∧ List.Sorted (entryLe lc) l2 ∧
    (∀ a b : Entry, List.Sublist [a, b] l → lc (keyOf a) (keyOf b) = 0 →
      List.Sublist [a, b] l2) := by
  haveI : IsTotal Entry (entryLe lc) := ⟨htot⟩
  haveI : IsTrans Entry (entryLe lc) := ⟨fun a b c => htrans a b c⟩
  simp only [sortStep] at hsort
  split_ifs at hsort with hlen hall
  · injection hsort with h
    subst h
    refine ⟨List.Perm.refl _, ?_, fun a b hab _ => hab⟩
    cases l with
    | nil => exact List.sorted_nil
    | cons x xs =>
      cases xs with
      | nil => exact List.sorted_singleton x
      | cons y ys => simp at hlen
  · injection hsort with h
    subst h
    refine ⟨List.perm_insertionSort _ _, List.sorted_insertionSort _ _, ?_⟩
    intro a b hab hz
    exact List.pair_sublist_insertionSort (by simp [entryLe, hz]) hab

/-- C4, witness: a three-entry list with a tied `Flu` pair is sorted to
`[FluA, FluB, Varicella]`; it is a permutation, sorted, and the tied pair
keeps its original order. -/
theorem C4_sorted_stable_witness :
    sortStep localeCompareModel (some demoStableList) = Except.ok demoStableSorted ∧
    demoStableSorted.Perm demoStableList ∧
    List.Sorted (entryLe localeCompareModel) demoStableSorted ∧
    localeCompareModel (keyOf entryFluA) (keyOf entryFluB) = 0 ∧
    List.Sublist [entryFluA, entryFluB] demoStableList ∧
    List.Sublist [entryFluA, entryFluB] demoStableSorted := by
  have hsort : sortStep localeCompareModel (some demoStableList)
      = Except.ok demoStableSorted := rfl
  have hsub : List.Sublist [entryFluA, entryFluB] demoStableList :=
    List.Sublist.cons entryVaricella (List.Sublist.refl [entryFluA, entryFluB])
  have h := C4_sorted_stable localeCompareModel demoStableList demoStableSorted
    hsort entryLe_lcm_total entryLe_lcm_trans
  exact ⟨hsort, h.1, h.2.1, by decide, hsub, h.2.2 entryFluA entryFluB hsub (by decide)⟩

/-- C3.  A hook-valid request whose fetched bundle has a non-empty entry
list (with readable keys) is answered with exactly one card: fixed
summary, the markdown table over the sorted entries as detail, the fixed
per-file source pair, indicator `info`; the table has one row per entry. -/
theorem C3_single_card (cfg : SourceCfg) (lc : String → String → Int)
    (parse : String → Except Unit Bundle) (a : String) (body : HookRequest)
    (s : String) (record : Bundle) (l : List Entry)
    (hhook : body.hook = "patient-view")
    (hparse : parse s = Except.ok record)
    (htotal : jsEqZero record.total = false)
    (hentry : record.entry = some l)
    (hne : l ≠ [])
    (hvc : ∀ e ∈ l, e.resource.vaccineCode.isSome) :
    (post_patient_view cfg lc parse (Except.ok s) (some a) body).result
      = Except.ok
          { status := 200,
            body := ResponseBody.cards
              [{ summary := "This patient has received immunizations",
                 detail := tableHeader ++ String.intercalate "\n" ((sortEntries lc l).map plainRow),
                 source := cfg.cardSource,
                 indicator := "info" }] } ∧
    ((sortEntries lc l).map plainRow).length = l.length := by
  have hsort := sortStep_eq_sortEntries lc l hvc
  have hlen : (sortEntries lc l).length = l.length := List.length_insertionSort _ _
  have hvc2 : ∀ e ∈ sortEntries lc l, e.resource.vaccineCode.isSome := by
    intro e he
    exact hvc e ((List.mem_insertionSort _).mp he)
  have hne2 : sortEntries lc l ≠ [] := by
    intro hnil
    apply hne
    apply List.length_eq_zero.mp
    rw [← hlen, hnil]
    rfl
  have hrender := renderCards_ok cfg (sortEntries lc l) hne2 hvc2
  have hpipe : pipelineFromRecord cfg lc record
      = Except.ok
          [{ summary := "This patient has received immunizations",
             detail := tableHeader ++ String.intercalate "\n" ((sortEntries lc l).map plainRow),
             source := cfg.cardSource,
             indicator := "info" }] := by
    simp [pipelineFromRecord, totalStep, htotal, hentry, hsort, hrender]
  constructor
  · simp [post_patient_view, hhook, runPipeline, fetchParse, hparse, hpipe, responseOfPipeline]
  · rw [List.length_map, hlen]

/-- C3, witness on the concrete scenario of the spec (MMR undated, Flu
dated): one card, two rows. -/
theorem C3_single_card_witness :
    demoGoodRequest.hook = "patient-view" ∧
    parseRender "raw" = Except.ok demoRenderBundle ∧
    jsEqZero demoRenderBundle.total = false ∧
    demoRenderBundle.entry = some demoRenderList ∧
    demoRenderList ≠ [] ∧
    (∀ e ∈ demoRenderList, e.resource.vaccineCode.isSome) ∧
    ((post_patient_view part000Cfg localeCompareModel parseRender (Except.ok "raw")
          (some "Bearer tok") demoGoodRequest).result
        = Except.ok
            { status := 200,
              body := ResponseBody.cards
                [{ summary := "This patient has received immunizations",
                   detail := tableHeader ++ String.intercalate "\n"
                     ((sortEntries localeCompareModel demoRenderList).map plainRow),
                   source := part000Cfg.cardSource,
                   indicator := "info" }] } ∧
      ((sortEntries localeCompareModel demoRenderList).map plainRow).length
        = demoRenderList.length) :=
  ⟨rfl, rfl, rfl, rfl, by decide, by decide,
    C3_single_card part000Cfg localeCompareModel parseRender "Bearer tok"
      demoGoodRequest "raw" demoRenderBundle demoRenderList rfl rfl rfl rfl
      (by decide) (by decide)⟩

/-- C6, counterexample.  `l.sort(...)` sorts the entry array in place:
after the pipeline, the out-of-order bundle `demoMutBundle` is no longer
equal to the bundle as received — refuting the read-only/no-mutation
claim. -/
theorem C6_counterexample :
    bundleAfter localeCompareModel demoMutBundle ≠ demoMutBundle := by
  decide

/-- C6, amended.  The ordering step is the only mutation: it replaces the
entry list by a permutation of itself (its stable sort) while `total` is
preserved, and when the pipeline throws before sorting (`total == 0` or a
missing entry list) the bundle is unchanged. -/
theorem C6_entry_sorted_in_place (lc : String → String → Int) (b : Bundle) :
    (bundleAfter lc b).total = b.total ∧
    ((bundleAfter lc b).entry.getD []).Perm (b.entry.getD []) ∧
    (jsEqZero b.total = true → bundleAfter lc b = b) ∧
    (b.entry = none → bundleAfter lc b = b) := by
  refine ⟨?_, ?_, ?_, ?_⟩
  · unfold bundleAfter
    split
    · rfl
    · split <;> rfl
  · unfold bundleAfter
    split
    · exact List.Perm.refl _
    · split
      · rename_i l2 hok
        obtain ⟨l, hl, hp⟩ := sortStep_ok_perm lc b.entry l2 hok
        simp only [hl, Option.getD_some]
        exact hp
      · exact List.Perm.refl _
  · intro hz
    simp [bundleAfter, hz]
  · intro hnone
    simp [bundleAfter, hnone, sortStep]

/-- C6, witness for the amended theorem on the out-of-order bundle. -/
theorem C6_entry_sorted_in_place_witness :
    (bundleAfter localeCompareModel demoMutBundle).total = demoMutBundle.total ∧
    ((bundleAfter localeCompareModel demoMutBundle).entry.getD []).Perm
      (demoMutBundle.entry.getD []) ∧
    (jsEqZero demoMutBundle.total = true →
      bundleAfter localeCompareModel demoMutBundle = demoMutBundle) ∧
    (demoMutBundle.entry = none →
      bundleAfter localeCompareModel demoMutBundle = demoMutBundle) :=
  C6_entry_sorted_in_place localeCompareModel demoMutBundle

end CdsService
